import Mathlib

/-!
Verification of the TradeIland authenticated-session controller.

This file gives a shallow embedding of the two core modules,
`src/scraping/auth/session_manager.py` (class SessionManager) and
`src/scraping/auth/authenticator.py` (class TradeIslandAuthenticator),
and proves the specified properties about them.

Modelling conventions:
- Wall-clock time is a `Nat` passed explicitly to every operation
  (one clock reading per operation, standing for `datetime.now()`).
- The filesystem session directory is a `Store` value holding the two
  artifacts `cookies.json` and `session_info.json`.  A file may be
  absent (`none`); the metadata file may be present but unparsable
  (`some none`), mirroring a `json.load` / `fromisoformat` failure that
  the Python code catches.
- A Python exception escaping a method is modelled as `Except.error`;
  an exception caught inside the method does not surface.
- The browser environment of `login` is a `LoginEnv`: whether the
  initial navigation succeeds, what the two `_is_logged_in` probes
  answer, and which CSS selectors `wait_for_selector` finds.  `login`
  returns its Python return value (a `Bool`) together with the trace of
  page side effects it performed, in order.
-/

/-- A browser cookie, an opaque pass-through value for the controller. -/
structure Cookie where
  name : String
  value : String
  domain : String
  path : String
  expiry : Nat
  secure : Bool
  httpOnly : Bool
deriving DecidableEq

/-- The opaque `user_info` mapping stored in the metadata artifact. -/
abbrev UserInfo := List (String × String)

/-- Parsed contents of `session_info.json`
(`created_at`, `expires_at`, `last_activity`, `user_info`). -/
structure SessionInfo where
  created_at : Nat
  expires_at : Nat
  last_activity : Nat
  user_info : UserInfo
deriving DecidableEq

/-- The persisted session directory: the cookie artifact and the
metadata artifact.  `none` means the file is absent; for the metadata
file, `some none` means present but unparsable. -/
structure Store where
  cookiesFile : Option (List Cookie)
  infoFile : Option (Option SessionInfo)
deriving DecidableEq

/-- Python `user_info or \x7b\x7d` from `SessionManager.save_session`:
`None` and the empty dict are both replaced by the empty dict. -/
def userInfoOr (ui : Option UserInfo) : UserInfo :=
  match ui with
  | none => []
  | some u => if u.isEmpty then [] else u

/-- `SessionManager.save_session(cookies, user_info)`.  `writeOk` is the
environment: whether the disk writes succeed.  On success both artifacts
are overwritten, the metadata getting `created_at = now`,
`expires_at = now + timeout`, `last_activity = now`.  On a write failure
the caught exception is re-raised (`raise` in the `except` block),
modelled as `Except.error`. -/
def save_session (writeOk : Bool) (now timeout : Nat) (cookies : List Cookie)
    (user_info : Option UserInfo) (_s : Store) : Except Unit Store :=
  if writeOk then
    Except.ok
      { cookiesFile := some cookies,
        infoFile := some (some
          { created_at := now,
            expires_at := now + timeout,
            last_activity := now,
            user_info := userInfoOr user_info }) }
  else
    Except.error ()

/-- `SessionManager.is_session_valid`: false when the metadata file is
missing or unparsable, false when `now > expires_at`, true otherwise. -/
def is_session_valid (s : Store) (now : Nat) : Bool :=
  match s.infoFile with
  | none => false
  | some none => false
  | some (some i) => decide (now ≤ i.expires_at)

/-- `SessionManager.load_session`: `None` unless `is_session_valid`;
otherwise the cookie list (empty when the cookie file is absent)
together with the metadata record. -/
def load_session (s : Store) (now : Nat) : Option (List Cookie × SessionInfo) :=
  if is_session_valid s now then
    match s.infoFile with
    | some (some i) => some (s.cookiesFile.getD [], i)
    | _ => none
  else
    none

/-- `SessionManager.update_last_activity`: returns immediately when the
metadata file does not exist; when it exists but fails to parse the
exception is caught and nothing is written; otherwise only the
`last_activity` key is rewritten. -/
def update_last_activity (s : Store) (now : Nat) : Store :=
  match s.infoFile with
  | none => s
  | some none => s
  | some (some i) =>
    { cookiesFile := s.cookiesFile,
      infoFile := some (some
        { created_at := i.created_at,
          expires_at := i.expires_at,
          last_activity := now,
          user_info := i.user_info }) }

/-- The `status` string of an invalid session in `get_session_status`. -/
def expiredOrMissing : String := "expired_or_missing"

/-- Result of `SessionManager.get_session_status`. -/
inductive SessionStatus where
  | invalid (status : String)
  | active (created expires lastActivity remaining : Nat) (user_info : UserInfo)
deriving DecidableEq

/-- The `is_valid` key of the status dictionary. -/
def SessionStatus.is_valid : SessionStatus → Bool
  | .invalid _ => false
  | .active _ _ _ _ _ => true

/-- `SessionManager.get_session_status`: invalid when `is_session_valid`
fails; otherwise the timestamps, `max 0 (expires_at - now)` remaining
seconds (truncated `Nat` subtraction), and the user info. -/
def get_session_status (s : Store) (now : Nat) : SessionStatus :=
  if is_session_valid s now then
    match s.infoFile with
    | some (some i) =>
      .active i.created_at i.expires_at i.last_activity (i.expires_at - now) i.user_info
    | _ => .invalid expiredOrMissing
  else
    .invalid expiredOrMissing

/-- `TradeIslandAuthenticator._load_session`: whenever the cookie file
exists its cookies are added to the browser context; the metadata file
is never consulted.  Returns the cookies handed to `add_cookies`. -/
def authLoadSession (s : Store) : List Cookie :=
  match s.cookiesFile with
  | some cookies => cookies
  | none => []

/-- The ordered email-field candidate selectors of `login`. -/
def emailSelectors : List String :=
  ["input[type=\"email\"]",
   "input[name*=\"email\"]",
   "input[name*=\"mail\"]",
   "input[id*=\"email\"]",
   "input[id*=\"mail\"]",
   "input[placeholder*=\"メール\"]",
   "input[placeholder*=\"email\"]"]

/-- The ordered password-field candidate selectors of `login`. -/
def passwordSelectors : List String :=
  ["input[type=\"password\"]",
   "input[name*=\"password\"]",
   "input[name*=\"pass\"]",
   "input[id*=\"password\"]",
   "input[id*=\"pass\"]",
   "input[placeholder*=\"パスワード\"]",
   "input[placeholder*=\"password\"]"]

/-- The ordered submit-control candidate selectors of `login`. -/
def loginSelectors : List String :=
  ["button[type=\"submit\"]",
   "input[type=\"submit\"]",
   "button:has-text(\"ログイン\")",
   "button:has-text(\"login\")",
   "input[value*=\"ログイン\"]",
   "input[value*=\"login\"]",
   "[class*=\"login\"] button",
   "[class*=\"signin\"] button"]

/-- Name of the identifier field, used in fill events. -/
def emailField : String := "email"

/-- Name of the secret field, used in fill events. -/
def passwordField : String := "password"

/-- Observable page side effects performed by `login`, in order:
the initial navigation, each `wait_for_selector` probe of a field or
button candidate, each `fill`, the submit `click`, and the
`_save_session` cookie write. -/
inductive Event where
  | navigate
  | probe (selector : String)
  | fill (field : String)
  | click
  | save
deriving DecidableEq

/-- The browser environment a `login` run faces: whether the initial
`goto` succeeds, what `_is_logged_in` answers before filling and after
submitting, and which selectors `wait_for_selector` finds. -/
structure LoginEnv where
  navigateOk : Bool
  loggedInBefore : Bool
  loggedInAfter : Bool
  finds : String → Bool

/-- The candidate-resolution loop of `login` (also the CandidateResolver
of the spec): try each selector in order inside `try`, break on the
first one `wait_for_selector` finds.  Returns the winner (or `none`)
together with the list of selectors attempted, in order. -/
def resolveTrace (m : String → Bool) : List String → Option String × List String
  | [] => (none, [])
  | c :: cs =>
    if m c then (some c, [c])
    else
      let r := resolveTrace m cs
      (r.1, c :: r.2)

/-- `TradeIslandAuthenticator.login`: navigate to the login page,
short-circuit if already logged in, resolve and fill the email field,
resolve and fill the password field, resolve and click the login
button, re-check the login state and save the session on success.
Every failure — a `goto` exception, candidate exhaustion of any of the
three lists, or a failed post-submit check — returns `False`; the
outer `except` also turns any exception into `False`.  The result is
the returned `Bool` paired with the trace of page effects. -/
def login (env : LoginEnv) : Bool × List Event :=
  if env.navigateOk then
    if env.loggedInBefore then
      (true, [Event.navigate])
    else
      match resolveTrace env.finds emailSelectors with
      | (none, att1) => (false, Event.navigate :: att1.map Event.probe)
      | (some _, att1) =>
        match resolveTrace env.finds passwordSelectors with
        | (none, att2) =>
          (false, Event.navigate :: att1.map Event.probe
            ++ [Event.fill emailField] ++ att2.map Event.probe)
        | (some _, att2) =>
          match resolveTrace env.finds loginSelectors with
          | (none, att3) =>
            (false, Event.navigate :: att1.map Event.probe
              ++ [Event.fill emailField] ++ att2.map Event.probe
              ++ [Event.fill passwordField] ++ att3.map Event.probe)
          | (some _, att3) =>
            if env.loggedInAfter then
              (true, Event.navigate :: att1.map Event.probe
                ++ [Event.fill emailField] ++ att2.map Event.probe
                ++ [Event.fill passwordField] ++ att3.map Event.probe
                ++ [Event.click, Event.save])
            else
              (false, Event.navigate :: att1.map Event.probe
                ++ [Event.fill emailField] ++ att2.map Event.probe
                ++ [Event.fill passwordField] ++ att3.map Event.probe
                ++ [Event.click])
  else
    (false, [Event.navigate])

/-- A run whose initial navigation raises a transport error. -/
def envTransportErr : LoginEnv :=
  { navigateOk := false, loggedInBefore := false, loggedInAfter := false,
    finds := fun _ => true }

/-- A run that is already authenticated after navigating. -/
def envAlreadyLoggedIn : LoginEnv :=
  { navigateOk := true, loggedInBefore := true, loggedInAfter := false,
    finds := fun _ => false }

/-- A run where no email-field candidate is found. -/
def envEmailNotFound : LoginEnv :=
  { navigateOk := true, loggedInBefore := false, loggedInAfter := true,
    finds := fun _ => false }

/-- A run where every candidate is found but the post-submit
authentication check fails (invalid credentials). -/
def envVerifyFailed : LoginEnv :=
  { navigateOk := true, loggedInBefore := false, loggedInAfter := false,
    finds := fun _ => true }

/-- A run where the email field resolves but no password-field
candidate is found. -/
def envNoPassword : LoginEnv :=
  { navigateOk := true, loggedInBefore := false, loggedInAfter := true,
    finds := fun s => emailSelectors.contains s }

/-- An empty session directory. -/
def store0 : Store := { cookiesFile := none, infoFile := none }

/-- A concrete cookie. -/
def cookie0 : Cookie :=
  { name := "sid", value := "abc", domain := "example.com", path := "/",
    expiry := 0, secure := true, httpOnly := true }

/-- A parsed metadata record created at time 5 with a 100-second window. -/
def info0 : SessionInfo :=
  { created_at := 5, expires_at := 105, last_activity := 5, user_info := [] }

/-- A metadata record whose expiry is already in the past at time 11. -/
def infoExpired : SessionInfo :=
  { created_at := 0, expires_at := 10, last_activity := 0, user_info := [] }

/-- A store holding a cookie blob together with valid metadata. -/
def store1 : Store :=
  { cookiesFile := some [cookie0], infoFile := some (some info0) }

/-- A store whose metadata file exists but does not parse. -/
def storeUnparsable : Store :=
  { cookiesFile := some [cookie0], infoFile := some none }

/-- A store holding cookies plus expired metadata. -/
def storeExpired : Store :=
  { cookiesFile := some [cookie0], infoFile := some (some infoExpired) }

/-- A store holding a cookie blob but no metadata artifact at all. -/
def storeCookiesOnly : Store :=
  { cookiesFile := some [cookie0], infoFile := none }

/-- The store produced by `save_session true 5 100 [] none store0`. -/
def savedStore : Store :=
  { cookiesFile := some [], infoFile := some (some info0) }

/-- Concrete locator used in resolution examples. -/
def probeA : String := "a"

/-- Concrete locator used in resolution examples. -/
def probeB : String := "b"

/-- Concrete locator used in resolution examples. -/
def probeC : String := "c"

/-- Concrete locator matching nothing in the example lists. -/
def probeX : String := "x"

/-- If no candidate matches, the loop returns `none` having attempted
the whole list in order. -/
theorem resolveTrace_none (m : String → Bool) (l : List String)
    (h : ∀ c ∈ l, m c = false) : resolveTrace m l = (none, l) := by
  induction l with
  | nil => rfl
  | cons c cs ih =>
    have hc : m c = false := h c (List.mem_cons_self c cs)
    have hcs := ih (fun x hx => h x (List.mem_cons_of_mem c hx))
    simp [resolveTrace, hc, hcs]

/-- The loop stops at the first matching candidate, attempting exactly
the failing prefix plus the winner, and probing nothing after it. -/
theorem resolveTrace_first (m : String → Bool) (c : String) (rest : List String)
    (hc : m c = true) : ∀ pre : List String, (∀ x ∈ pre, m x = false) →
    resolveTrace m (pre ++ c :: rest) = (some c, pre ++ [c]) := by
  intro pre
  induction pre with
  | nil => intro _; simp [resolveTrace, hc]
  | cons p ps ih =>
    intro h
    have hp : m p = false := h p (List.mem_cons_self p ps)
    have hps := ih (fun x hx => h x (List.mem_cons_of_mem p hx))
    simp [resolveTrace, hp, hps]

/-- Every selector the loop attempts comes from the candidate list. -/
theorem resolveTrace_attempts_subset (m : String → Bool) (l : List String) :
    ∀ x ∈ (resolveTrace m l).2, x ∈ l := by
  induction l with
  | nil => simp [resolveTrace]
  | cons c cs ih =>
    by_cases hc : m c = true
    · simp [resolveTrace, hc]
    · simp only [Bool.not_eq_true] at hc
      intro x hx
      simp only [resolveTrace, hc, Bool.false_eq_true, if_false, List.mem_cons] at hx
      rcases hx with h | h
      · rw [h]
        exact List.mem_cons_self c cs
      · exact List.mem_cons_of_mem c (ih x h)

/-- Python `u or \x7b\x7d` is the identity on dictionaries. -/
theorem userInfoOr_some (u : UserInfo) : userInfoOr (some u) = u := by
  show (if u.isEmpty = true then [] else u) = u
  by_cases h : u.isEmpty = true
  · rw [if_pos h]
    exact (List.isEmpty_iff.mp h).symm
  · rw [if_neg h]

/-- C3: for every run of `login` in which the authentication check
performed after navigating to the login page returns true, `login`
returns success (`true`) and performs zero fill and zero submit (and
zero save) operations — the trace holds only the navigation. -/
theorem login_idempotent (env : LoginEnv)
    (hn : env.navigateOk = true) (hb : env.loggedInBefore = true) :
    (login env).1 = true ∧ (∀ f, Event.fill f ∉ (login env).2) ∧
    Event.click ∉ (login env).2 ∧ Event.save ∉ (login env).2 := by
  simp [login, hn, hb]

/-- Witness for C3: the already-authenticated run returns true with no
fill, click or save. -/
theorem login_idempotent_witness :
    (login envAlreadyLoggedIn).1 = true ∧
    (∀ f, Event.fill f ∉ (login envAlreadyLoggedIn).2) ∧
    Event.click ∉ (login envAlreadyLoggedIn).2 ∧
    Event.save ∉ (login envAlreadyLoggedIn).2 :=
  login_idempotent envAlreadyLoggedIn rfl rfl

/-- C6: the candidate loop tries locators in the given order; when no
candidate matches it attempts all N of them (attempt count = N) and
only then reports not-found; when the list splits as a failing prefix
followed by a match, it stops at that first match having attempted
exactly the prefix plus the winner — nothing after it is probed. -/
theorem resolve_order_exhaustion (m : String → Bool) (cands : List String) :
    ((∀ c ∈ cands, m c = false) →
      resolveTrace m cands = (none, cands) ∧
      (resolveTrace m cands).2.length = cands.length) ∧
    (∀ pre c rest, cands = pre ++ c :: rest → (∀ x ∈ pre, m x = false) →
      m c = true → resolveTrace m cands = (some c, pre ++ [c])) := by
  constructor
  · intro h
    refine ⟨resolveTrace_none m cands h, ?_⟩
    rw [resolveTrace_none m cands h]
  · intro pre c rest hsplit hpre hc
    rw [hsplit]
    exact resolveTrace_first m c rest hc pre hpre

/-- Witness for C6: exhaustion on a two-element list with no match, and
first-match-wins on a three-element list whose second element matches. -/
theorem resolve_order_exhaustion_witness :
    resolveTrace (fun s => s == probeX) [probeA, probeB] = (none, [probeA, probeB]) ∧
    resolveTrace (fun s => s == probeB) [probeA, probeB, probeC] =
      (some probeB, [probeA, probeB]) := by
  constructor
  · exact ((resolve_order_exhaustion (fun s => s == probeX) [probeA, probeB]).1
      (by decide)).1
  · exact (resolve_order_exhaustion (fun s => s == probeB) [probeA, probeB, probeC]).2
      [probeA] probeB [probeC] rfl (by decide) (by decide)

/-- C10: calling `update_last_activity` when the metadata artifact does
not exist is a silent no-op: the store is returned unchanged and no
error is raised (the function is total). -/
theorem touch_missing_metadata_noop (s : Store) (now : Nat)
    (h : s.infoFile = none) : update_last_activity s now = s := by
  simp [update_last_activity, h]

/-- Witness for C10 on the empty store. -/
theorem touch_missing_metadata_noop_witness :
    update_last_activity store0 7 = store0 :=
  touch_missing_metadata_noop store0 7 rfl

/-- C2 counterexample: with a cookie blob on disk and no metadata at
all, the metadata oracle reports no usable session, yet
`TradeIslandAuthenticator._load_session` still restores the cookies
into the browser context — metadata is not the sole oracle. -/
theorem cookie_blob_without_metadata_restored :
    is_session_valid storeCookiesOnly 0 = false ∧
    authLoadSession storeCookiesOnly = [cookie0] ∧
    [cookie0] ≠ ([] : List Cookie) := by
  refine ⟨rfl, rfl, by simp⟩

/-- C2 amended: `SessionManager.load_session` does treat a store that
fails metadata validation as absent (returns `None`), but
`TradeIslandAuthenticator._load_session` restores whatever the cookie
file holds, never consulting metadata. -/
theorem metadata_oracle_amended (s : Store) (now : Nat) :
    (is_session_valid s now = false → load_session s now = none) ∧
    (∀ cookies, s.cookiesFile = some cookies → authLoadSession s = cookies) := by
  constructor
  · intro h
    simp [load_session, h]
  · intro cookies h
    simp [authLoadSession, h]

/-- Witness for the amended C2 on the cookie-blob-only store. -/
theorem metadata_oracle_amended_witness :
    load_session storeCookiesOnly 3 = none ∧
    authLoadSession storeCookiesOnly = [cookie0] := by
  constructor
  · exact (metadata_oracle_amended storeCookiesOnly 3).1 rfl
  · exact (metadata_oracle_amended storeCookiesOnly 3).2 [cookie0] rfl

/-- C7: for every store and time `now`, `load_session` returns `None`
when the metadata artifact is missing, unparsable, or expired
(`now > expires_at`); an expired record is reported invalid by
`get_session_status` as well, regardless of cookie contents; otherwise
`load_session` returns the cookies plus the metadata. -/
theorem load_status_expiry (s : Store) (now : Nat) :
    (s.infoFile = none → load_session s now = none) ∧
    (s.infoFile = some none → load_session s now = none) ∧
    (∀ i : SessionInfo, s.infoFile = some (some i) → i.expires_at < now →
      load_session s now = none ∧
      SessionStatus.is_valid (get_session_status s now) = false) ∧
    (∀ i : SessionInfo, s.infoFile = some (some i) → now ≤ i.expires_at →
      load_session s now = some (s.cookiesFile.getD [], i)) := by
  refine ⟨?_, ?_, ?_, ?_⟩
  · intro h
    simp [load_session, is_session_valid, h]
  · intro h
    simp [load_session, is_session_valid, h]
  · intro i h hx
    have hv : is_session_valid s now = false := by
      simp [is_session_valid, h]
      omega
    constructor
    · simp [load_session, hv]
    · simp [get_session_status, hv, SessionStatus.is_valid]
  · intro i h hx
    have hv : is_session_valid s now = true := by
      simp [is_session_valid, h, hx]
    simp [load_session, hv, h]

/-- Witness for C7: missing, unparsable, expired and valid stores. -/
theorem load_status_expiry_witness :
    load_session store0 0 = none ∧
    load_session storeUnparsable 0 = none ∧
    (load_session storeExpired 11 = none ∧
      SessionStatus.is_valid (get_session_status storeExpired 11) = false) ∧
    load_session store1 50 = some ([cookie0], info0) := by
  refine ⟨?_, ?_, ?_, ?_⟩
  · exact (load_status_expiry store0 0).1 rfl
  · exact (load_status_expiry storeUnparsable 0).2.1 rfl
  · exact (load_status_expiry storeExpired 11).2.2.1 infoExpired rfl (by decide)
  · exact (load_status_expiry store1 50).2.2.2 info0 rfl (by decide)

/-- C5: `save_session` stamps the metadata with
`expires_at = created_at + timeout` (all three timestamps taken at the
save instant), and `update_last_activity` rewrites only the
`last_activity` field, leaving `created_at`, `expires_at`, `user_info`
and the cookie artifact unchanged; only a later save resets them. -/
theorem fixed_window_expiry :
    (∀ (now timeout : Nat) (cookies : List Cookie) (ui : Option UserInfo)
        (s st : Store), save_session true now timeout cookies ui s = Except.ok st →
      ∃ i : SessionInfo, st.infoFile = some (some i) ∧
        i.expires_at = i.created_at + timeout ∧
        i.created_at = now ∧ i.last_activity = now) ∧
    (∀ (s : Store) (now : Nat) (i : SessionInfo), s.infoFile = some (some i) →
      update_last_activity s now =
        { cookiesFile := s.cookiesFile,
          infoFile := some (some
            { created_at := i.created_at, expires_at := i.expires_at,
              last_activity := now, user_info := i.user_info }) }) := by
  constructor
  · intro now timeout cookies ui s st h
    simp only [save_session, if_pos] at h
    cases h
    exact ⟨_, rfl, rfl, rfl, rfl⟩
  · intro s now i h
    simp [update_last_activity, h]

/-- Witness for C5: a concrete save and a concrete touch. -/
theorem fixed_window_expiry_witness :
    (∃ i : SessionInfo, savedStore.infoFile = some (some i) ∧
      i.expires_at = i.created_at + 100 ∧ i.created_at = 5 ∧ i.last_activity = 5) ∧
    update_last_activity store1 42 =
      { cookiesFile := some [cookie0],
        infoFile := some (some
          { created_at := 5, expires_at := 105, last_activity := 42,
            user_info := [] }) } := by
  constructor
  · exact fixed_window_expiry.1 5 100 [] none store0 savedStore rfl
  · exact fixed_window_expiry.2 store1 42 info0 rfl

/-- C9: round-trip — `save_session cookies (some u)` followed
immediately by `load_session` at the same instant returns exactly the
saved cookies and the saved user info. -/
theorem save_load_round_trip (now timeout : Nat) (cookies : List Cookie)
    (u : UserInfo) (s : Store) :
    ∃ i : SessionInfo,
      save_session true now timeout cookies (some u) s =
        Except.ok { cookiesFile := some cookies, infoFile := some (some i) } ∧
      load_session { cookiesFile := some cookies, infoFile := some (some i) } now =
        some (cookies, i) ∧
      i.user_info = u := by
  refine ⟨{ created_at := now, expires_at := now + timeout, last_activity := now,
            user_info := userInfoOr (some u) }, rfl, ?_, userInfoOr_some u⟩
  simp [load_session, is_session_valid, Nat.le_add_right]

/-- C1 counterexample: `login` does not return a typed outcome
distinguishing failure kinds — the invalid-credentials run, the
transport-error run and the identifier-not-found run all return the
very same value `false`; and `SessionManager.save_session` lets a
persistence error escape to its caller (the `except` block re-raises). -/
theorem login_failures_indistinct :
    (login envVerifyFailed).1 = (login envTransportErr).1 ∧
    (login envVerifyFailed).1 = (login envEmailNotFound).1 ∧
    save_session false 0 3600 [] none store0 = Except.error () := by
  refine ⟨rfl, rfl, rfl⟩

/-- C1 amended: `login` returns a bare boolean — `false` on a transport
failure, on candidate exhaustion and on a failed post-submit check
alike — and `save_session` propagates a write failure as a raised
exception rather than a typed failure value. -/
theorem login_boolean_outcome :
    (∀ env : LoginEnv, env.navigateOk = false → (login env).1 = false) ∧
    (∀ env : LoginEnv, env.navigateOk = true → env.loggedInBefore = false →
      (∀ c ∈ passwordSelectors, env.finds c = false) → (login env).1 = false) ∧
    (∀ env : LoginEnv, env.navigateOk = true → env.loggedInBefore = false →
      env.loggedInAfter = false → (login env).1 = false) ∧
    (∀ (now timeout : Nat) (cookies : List Cookie) (ui : Option UserInfo)
      (s : Store), save_session false now timeout cookies ui s = Except.error ()) := by
  refine ⟨?_, ?_, ?_, ?_⟩
  · intro env h
    simp [login, h]
  · intro env hn hb hp
    have hpw : resolveTrace env.finds passwordSelectors = (none, passwordSelectors) :=
      resolveTrace_none env.finds passwordSelectors hp
    rcases hE : resolveTrace env.finds emailSelectors with ⟨o1, att1⟩
    cases o1 with
    | none => simp [login, hn, hb, hE]
    | some x => simp [login, hn, hb, hE, hpw]
  · intro env hn hb ha
    rcases hE : resolveTrace env.finds emailSelectors with ⟨o1, att1⟩
    cases o1 with
    | none => simp [login, hn, hb, hE]
    | some x =>
      rcases hP : resolveTrace env.finds passwordSelectors with ⟨o2, att2⟩
      cases o2 with
      | none => simp [login, hn, hb, hE, hP]
      | some y =>
        rcases hS : resolveTrace env.finds loginSelectors with ⟨o3, att3⟩
        cases o3 with
        | none => simp [login, hn, hb, hE, hP, hS]
        | some z => simp [login, hn, hb, hE, hP, hS, ha]
  · intro now timeout cookies ui s
    rfl

/-- Witness for the amended C1 on concrete runs and a failing write. -/
theorem login_boolean_outcome_witness :
    (login envTransportErr).1 = false ∧
    (login envNoPassword).1 = false ∧
    (login envVerifyFailed).1 = false ∧
    save_session false 1 2 [] none store0 = Except.error () := by
  refine ⟨?_, ?_, ?_, ?_⟩
  · exact login_boolean_outcome.1 envTransportErr rfl
  · exact login_boolean_outcome.2.1 envNoPassword rfl rfl (by decide)
  · exact login_boolean_outcome.2.2.1 envVerifyFailed rfl rfl rfl
  · exact login_boolean_outcome.2.2.2 1 2 [] none store0

/-- C4 counterexample: the run in which all fields fill, submit is
clicked and the post-submit check fails returns the plain value
`false`, identical to the return of a run that never found the
identifier field — so `login` does not return a distinguished
`VerificationFailed` outcome. -/
theorem verify_failed_not_distinguished :
    (login envVerifyFailed).1 = false ∧
    (login envVerifyFailed).1 = (login envEmailNotFound).1 :=
  ⟨rfl, rfl⟩

/-- C4 amended: when both fields resolve and fill, the submit control
resolves and is clicked, and the post-submit check returns false,
`login` returns `false` (its generic failure value) and no session
record is written — the trace holds the click but no save. -/
theorem verify_failed_returns_false_no_save (env : LoginEnv)
    (hn : env.navigateOk = true) (hb : env.loggedInBefore = false)
    (he : (resolveTrace env.finds emailSelectors).1.isSome = true)
    (hp : (resolveTrace env.finds passwordSelectors).1.isSome = true)
    (hs : (resolveTrace env.finds loginSelectors).1.isSome = true)
    (ha : env.loggedInAfter = false) :
    (login env).1 = false ∧ Event.click ∈ (login env).2 ∧
    Event.save ∉ (login env).2 := by
  rcases hE : resolveTrace env.finds emailSelectors with ⟨o1, att1⟩
  rcases hP : resolveTrace env.finds passwordSelectors with ⟨o2, att2⟩
  rcases hS : resolveTrace env.finds loginSelectors with ⟨o3, att3⟩
  rw [hE] at he
  rw [hP] at hp
  rw [hS] at hs
  cases o1 with
  | none => simp at he
  | some x =>
    cases o2 with
    | none => simp at hp
    | some y =>
      cases o3 with
      | none => simp at hs
      | some z => simp [login, hn, hb, ha, hE, hP, hS]

/-- Witness for the amended C4 on the invalid-credentials run. -/
theorem verify_failed_witness :
    (login envVerifyFailed).1 = false ∧
    Event.click ∈ (login envVerifyFailed).2 ∧
    Event.save ∉ (login envVerifyFailed).2 :=
  verify_failed_returns_false_no_save envVerifyFailed rfl rfl rfl rfl rfl rfl

/-- C8 counterexample: the run whose identifier field resolves but
whose secret-field candidates all fail returns the plain value `false`,
identical to the return of a run whose identifier field itself was
missing — so `login` does not return an outcome identifying the secret
field (`ElementNotFound(secret)`). -/
theorem secret_not_found_not_distinguished :
    (login envNoPassword).1 = false ∧
    (login envNoPassword).1 = (login envEmailNotFound).1 :=
  ⟨rfl, rfl⟩

/-- C8 amended: when the identifier field resolves but every
secret-field candidate fails to match, `login` returns `false` (its
generic failure value) without ever probing a submit-control candidate
and without clicking anything. -/
theorem secret_not_found_no_submit (env : LoginEnv)
    (hn : env.navigateOk = true) (hb : env.loggedInBefore = false)
    (he : (resolveTrace env.finds emailSelectors).1.isSome = true)
    (hp : ∀ c ∈ passwordSelectors, env.finds c = false) :
    (login env).1 = false ∧ Event.click ∉ (login env).2 ∧
    ∀ sel ∈ loginSelectors, Event.probe sel ∉ (login env).2 := by
  have hpw : resolveTrace env.finds passwordSelectors = (none, passwordSelectors) :=
    resolveTrace_none env.finds passwordSelectors hp
  rcases hE : resolveTrace env.finds emailSelectors with ⟨o1, att1⟩
  rw [hE] at he
  cases o1 with
  | none => simp at he
  | some x =>
    have hsub : ∀ a ∈ att1, a ∈ emailSelectors := by
      intro a ha
      have h := resolveTrace_attempts_subset env.finds emailSelectors
      rw [hE] at h
      exact h a ha
    have hdisj : ∀ sel ∈ loginSelectors,
        sel ∉ emailSelectors ∧ sel ∉ passwordSelectors := by decide
    refine ⟨?_, ?_, ?_⟩
    · simp [login, hn, hb, hE, hpw]
    · simp [login, hn, hb, hE, hpw]
    · intro sel hsel
      obtain ⟨hd1, hd2⟩ := hdisj sel hsel
      simp only [login, hn, hb, hE, hpw, if_pos, Bool.false_eq_true, if_false,
        List.mem_cons, List.mem_append, List.mem_map, List.mem_singleton]
      push_neg
      refine ⟨⟨⟨by simp, ?_⟩, by simp, by simp⟩, ?_⟩
      · intro a ha hcontra
        have hax : a = sel := by injection hcontra
        exact hd1 (hax ▸ hsub a ha)
      · intro a ha hcontra
        have hax : a = sel := by injection hcontra
        exact hd2 (hax ▸ ha)

/-- Witness for the amended C8 on the run whose password field is
missing. -/
theorem secret_not_found_no_submit_witness :
    (login envNoPassword).1 = false ∧
    Event.click ∉ (login envNoPassword).2 ∧
    ∀ sel ∈ loginSelectors, Event.probe sel ∉ (login envNoPassword).2 :=
  secret_not_found_no_submit envNoPassword rfl rfl rfl (by decide)
